import Mathlib

/-
Verification of the flickr_PAD bulk-download pipeline (src/flickr_PAD.py).

The Python program is shallowly embedded as pure Lean functions:
  * the remote catalog, the transfer primitive and the metadata sub-queries
    become an explicit environment `Env` (page fetches and transfers are
    indexed by an attempt counter so that transient failures are expressible);
  * the filesystem, the checkpoint file and the call history become an
    explicit `World` value threaded through the run;
  * Python exceptions become the `PyExc` type and `Except` results;
  * the orchestrator `download_library` becomes a fold over the page range,
    returning the final in-memory state, the persisted-checkpoint trace,
    the log lines and the sleep trace.
-/

/-- Model of a Python exception: either a flickrapi FlickrError or any
other exception (transport errors, etc.). -/
inductive PyExc where
  | flickr (msg : String)
  | other (msg : String)
  deriving DecidableEq, Repr

/-- The message str(e) of an exception. -/
def excMsg : PyExc → String
  | PyExc.flickr m => m
  | PyExc.other m => m

/-- Substring test, modelling the Python `pat in s` operator. -/
def containsSubstr (s pat : String) : Bool :=
  (s.splitOn pat).length > 1

/-- The `'not found' in str(e).lower()` test of get_photo_metadata. -/
def isNotFoundMsg (m : String) : Bool :=
  containsSubstr m.toLower "not found"

/-- One item summary, as produced by people.getPhotos with the requested
extras.  Optional fields model the presence test `key in photo`. -/
structure Photo where
  id : String
  title : Option String
  url_o : Option String
  url_k : Option String
  url_h : Option String
  url_l : Option String
  url_c : Option String
  urlsList : List String
  originalformat : Option String
  media : Option String
  deriving DecidableEq, Repr

/-- One page of people.getPhotos results: totals plus the photo list. -/
structure PageData where
  total : Nat
  pages : Nat
  photo : List Photo
  deriving DecidableEq, Repr

/-- The merged metadata document written per photo (get_photo_metadata plus
the list_info field added by download_library). -/
structure Metadata where
  info : String
  exif : Option String
  comments : Option String
  list_info : Option Photo
  deriving DecidableEq, Repr

/-- The run statistics counters (self.stats). -/
structure Stats where
  downloaded : Nat
  failed : Nat
  skipped : Nat
  total : Nat
  deriving DecidableEq, Repr

/-- The checkpoint document (.download_state.json). -/
structure DLState where
  last_page : Nat
  downloaded : List String
  failed : List String
  deriving DecidableEq, Repr

/-- Outcome of one requests.get transfer: success, a transport error after
the destination file was created (partial write), or a transport error
before any byte was written. -/
inductive TransferResult where
  | ok
  | failAfterWrite (msg : String)
  | failNoWrite (msg : String)
  deriving DecidableEq, Repr

/-- The external world: photo files on disk, metadata files on disk, the
checkpoint file, and the history of page fetches and transfers performed
(used to index transient behaviour by attempt). -/
structure World where
  files : List String
  metaFiles : List (String × Metadata)
  stateFile : Option DLState
  fetches : List Nat
  transferLog : List String
  deriving DecidableEq, Repr

/-- The remote service and transfer primitive.  Page fetches and transfers
receive the number of earlier attempts of the same page / url, so that a
transient failure (fails once, then succeeds) is expressible. -/
structure Env where
  getInfo : String → Except PyExc String
  getExif : String → Except PyExc String
  getComments : String → Except PyExc String
  transfer : String → Nat → TransferResult
  getPhotos : Nat → Nat → Except PyExc PageData

/-- load_state: read the checkpoint file, defaulting to page 0 and empty
lists when absent. -/
def load_state (w : World) : DLState :=
  w.stateFile.getD { last_page := 0, downloaded := [], failed := [] }

/-- sanitize_filename: replace the invalid filesystem characters and cap
the length at 200. -/
def invalid_chars : List Char :=
  ['<', '>', ':', '"', '/', '\\', '|', '?', '*']

/-- sanitize_filename from the source: re.sub followed by slicing to 200. -/
def sanitize_filename (filename : String) : String :=
  String.mk (((filename.data).map
    (fun c => if c ∈ invalid_chars then '_' else c)).take 200)

/-- get_download_url: first present url among the quality tiers, else the
first entry of the urls list, else none. -/
def get_download_url (photo : Photo) : Option String :=
  match photo.url_o with
  | some u => some u
  | none =>
    match photo.url_k with
    | some u => some u
    | none =>
      match photo.url_h with
      | some u => some u
      | none =>
        match photo.url_l with
        | some u => some u
        | none =>
          match photo.url_c with
          | some u => some u
          | none => photo.urlsList.head?

/-- get_file_extension: originalformat, else mp4 for video, else jpg. -/
def get_file_extension (photo : Photo) : String :=
  match photo.originalformat with
  | some f => f
  | none => if photo.media = some "video" then "mp4" else "jpg"

/-- The destination filename computed in download_library:
photo_id + underscore + sanitized title + dot + extension. -/
def photoFilename (photo : Photo) : String :=
  photo.id ++ "_" ++ sanitize_filename (photo.title.getD "untitled")
    ++ "." ++ get_file_extension photo

/-- Warning line for a failed EXIF sub-query. -/
def exifWarnLog (pid m : String) : String :=
  "Warning: Could not get EXIF for " ++ pid ++ ": " ++ m

/-- Warning line for a failed comments sub-query. -/
def commentsWarnLog (pid m : String) : String :=
  "Warning: Could not get comments for " ++ pid ++ ": " ++ m

/-- Error line when the whole metadata aggregation fails. -/
def metaErrorLog (pid : String) (e : PyExc) : String :=
  "Error getting metadata for " ++ pid ++ ": " ++ excMsg e

/-- Handling of one optional sub-query result: success keeps the value, a
FlickrError degrades to none (with a warning unless it is a
not-found-class message).  A non-FlickrError is handled by the caller. -/
def optField (res : Except PyExc String) (warn : String → String) :
    Option String × List String :=
  match res with
  | Except.ok d => (some d, [])
  | Except.error (PyExc.flickr m) =>
      (none, if isNotFoundMsg m then [] else [warn m])
  | Except.error (PyExc.other _) => (none, [])

/-- get_photo_metadata: the core record is mandatory; EXIF and comments are
optional with FlickrError swallowed into none; any non-FlickrError makes
the whole aggregation return none (the outer except Exception). -/
def get_photo_metadata (env : Env) (photo_id : String) :
    Option Metadata × List String :=
  match env.getInfo photo_id with
  | Except.error e => (none, [metaErrorLog photo_id e])
  | Except.ok info =>
    match env.getExif photo_id with
    | Except.error (PyExc.other m) =>
        (none, [metaErrorLog photo_id (PyExc.other m)])
    | exifRes =>
      match env.getComments photo_id with
      | Except.error (PyExc.other m) =>
          (none, (optField exifRes (fun t => exifWarnLog photo_id t)).2
            ++ [metaErrorLog photo_id (PyExc.other m)])
      | commRes =>
          (some { info := info,
                  exif := (optField exifRes (fun t => exifWarnLog photo_id t)).1,
                  comments :=
                    (optField commRes (fun t => commentsWarnLog photo_id t)).1,
                  list_info := none },
           (optField exifRes (fun t => exifWarnLog photo_id t)).2
             ++ (optField commRes (fun t => commentsWarnLog photo_id t)).2)

/-- Result of one download_photo call. -/
structure DlResult where
  success : Bool
  world : World
  stats : Stats
  logs : List String

/-- download_photo: skip when the destination exists, otherwise stream the
asset; a transport error after the file was opened leaves the partial file
in place. -/
def download_photo (env : Env) (w : World) (stats : Stats)
    (_photo_id url filename : String) : DlResult :=
  if filename ∈ w.files then
    { success := true, world := w,
      stats := { stats with skipped := stats.skipped + 1 },
      logs := ["Skipping existing: " ++ filename] }
  else
    match env.transfer url (w.transferLog.count url) with
    | TransferResult.ok =>
        { success := true,
          world := { w with files := w.files ++ [filename],
                            transferLog := w.transferLog ++ [url] },
          stats := { stats with downloaded := stats.downloaded + 1 },
          logs := ["Downloading: " ++ filename, "Success: " ++ filename] }
    | TransferResult.failAfterWrite m =>
        { success := false,
          world := { w with files := w.files ++ [filename],
                            transferLog := w.transferLog ++ [url] },
          stats := { stats with failed := stats.failed + 1 },
          logs := ["Downloading: " ++ filename,
                   "ERROR: Failed to download " ++ filename ++ ": " ++ m] }
    | TransferResult.failNoWrite m =>
        { success := false,
          world := { w with transferLog := w.transferLog ++ [url] },
          stats := { stats with failed := stats.failed + 1 },
          logs := ["Downloading: " ++ filename,
                   "ERROR: Failed to download " ++ filename ++ ": " ++ m] }

/-- In-memory state of one download_library run: the checkpoint dict, the
world, the statistics, the log, the trace of persisted checkpoints and the
trace of sleeps (in tenths of a second). -/
structure RunState where
  chk : DLState
  world : World
  stats : Stats
  logs : List String
  saves : List DLState
  sleeps : List Nat
  deriving DecidableEq, Repr

/-- save_state: persist the checkpoint (whole-document replace). -/
def save_state (s : RunState) (c : DLState) : RunState :=
  { s with chk := c,
           world := { s.world with stateFile := some c },
           saves := s.saves ++ [c] }

/-- The per-photo progress log line. -/
def progress_log (total_photos i : Nat) (photo : Photo) (s : RunState) :
    RunState :=
  { s with logs := s.logs ++
      ["Photo " ++ toString (s.chk.downloaded.length + i) ++ "/"
        ++ toString total_photos ++ ": " ++ photo.id ++ " - "
        ++ photo.title.getD "untitled"] }

/-- The metadata phase of one item: aggregate, then either write the
document (with list_info embedded) or warn. -/
def metadata_step (env : Env) (photo : Photo) (s : RunState) : RunState :=
  match get_photo_metadata env photo.id with
  | (some md, mlogs) =>
      { s with logs := s.logs ++ mlogs,
               world := { s.world with metaFiles :=
                 (s.world.metaFiles.filter (fun p => p.1 ≠ photo.id))
                   ++ [(photo.id, { md with list_info := some photo })] } }
  | (none, mlogs) =>
      { s with logs := s.logs ++ mlogs
        ++ ["Warning: Could not get metadata for " ++ photo.id] }

/-- The URL-resolution and download phase of one item, including the
classification into the downloaded or failed checkpoint list. -/
def download_step (env : Env) (photo : Photo) (s : RunState) : RunState :=
  match get_download_url photo with
  | some url =>
      let filename := photoFilename photo
      let r := download_photo env s.world s.stats photo.id url filename
      let s2 : RunState :=
        { s with world := r.world, stats := r.stats, logs := s.logs ++ r.logs }
      if r.success = true ∨ filename ∈ r.world.files then
        { s2 with chk :=
            { s2.chk with downloaded := s2.chk.downloaded ++ [photo.id] } }
      else
        { s2 with chk :=
            { s2.chk with failed := s2.chk.failed ++ [photo.id] } }
  | none =>
      { s with
        logs := s.logs ++ ["Warning: No download URL found for " ++ photo.id],
        chk := { s.chk with failed := s.chk.failed ++ [photo.id] } }

/-- Record a time.sleep call (duration in tenths of a second). -/
def addSleep (n : Nat) (s : RunState) : RunState :=
  { s with sleeps := s.sleeps ++ [n] }

/-- Set last_page and persist (the two statements after each item, and the
rollback in the page except branch). -/
def save_page (page : Nat) (s : RunState) : RunState :=
  save_state s { s.chk with last_page := page }

/-- One item of the per-page loop: skip when already in the downloaded
list, otherwise metadata, download, classification, checkpoint save and
rate-limit sleep. -/
def process_photo (env : Env) (total_photos page i : Nat) (photo : Photo)
    (s : RunState) : RunState :=
  if photo.id ∈ s.chk.downloaded then
    { s with logs := s.logs
        ++ ["Skipping already processed photo: " ++ photo.id] }
  else
    addSleep 5 (save_page page
      (download_step env photo
        (metadata_step env photo (progress_log total_photos i photo s))))

/-- The enumerate(photos, 1) loop body. -/
def process_items (env : Env) (total_photos page : Nat) :
    List Photo → Nat → RunState → RunState
  | [], _, s => s
  | photo :: rest, i, s =>
      process_items env total_photos page rest (i + 1)
        (process_photo env total_photos page i photo s)

/-- Fetch the data of one page inside the loop; page 1 of a fresh run
reuses the initial fetch. -/
def fetch_page (env : Env) (start_page page : Nat) (first_page : PageData)
    (s : RunState) : Except PyExc PageData × RunState :=
  if page = 1 ∧ start_page = 1 then (Except.ok first_page, s)
  else
    (env.getPhotos page (s.world.fetches.count page),
     { s with world :=
        { s.world with fetches := s.world.fetches ++ [page] } })

/-- The log line before each page. -/
def processingLog (total_pages page : Nat) (s : RunState) : RunState :=
  { s with logs := s.logs ++
      ["Processing page " ++ toString page ++ " of " ++ toString total_pages] }

/-- One iteration of the page loop, with the except branch: on a page
fetch error, log, roll last_page back to page - 1, persist, sleep 5
seconds and continue. -/
def process_page (env : Env) (start_page total_photos total_pages : Nat)
    (first_page : PageData) (s : RunState) (page : Nat) : RunState :=
  match fetch_page env start_page page first_page
      (processingLog total_pages page s) with
  | (Except.ok page_data, s1) =>
      let s2 := process_items env total_photos page page_data.photo 1
        { s1 with logs := s1.logs ++
          ["Found " ++ toString page_data.photo.length
            ++ " photos on this page"] }
      { s2 with logs := s2.logs ++
          ["Page " ++ toString page ++ " complete",
           "Downloaded: " ++ toString s2.stats.downloaded
             ++ ", Skipped: " ++ toString s2.stats.skipped
             ++ ", Failed: " ++ toString s2.stats.failed] }
  | (Except.error e, s1) =>
      addSleep 50 (save_page (page - 1)
        { s1 with logs := s1.logs ++
            ["ERROR on page " ++ toString page ++ ": " ++ excMsg e,
             "Saving state and continuing..."] })

/-- range(start_page, total_pages + 1). -/
def pageRange (start_page total_pages : Nat) : List Nat :=
  List.range' start_page (total_pages + 1 - start_page)

/-- The banner, resume and totals log lines before the page loop. -/
def startLogs (state : DLState) (fp : PageData) : List String :=
  ["Starting Flickr library download"]
    ++ (if state.last_page + 1 > 1 then
          ["Resuming from page " ++ toString (state.last_page + 1),
           "Previously downloaded: " ++ toString state.downloaded.length
             ++ " photos"]
        else [])
    ++ ["Fetching photo list...",
        "Total photos: " ++ toString fp.total,
        "Total pages: " ++ toString fp.pages]

/-- The state at the top of download_library, after the initial page-1
fetch succeeded. -/
def initRunState (w : World) (fp : PageData) : RunState :=
  { chk := load_state w,
    world := { w with fetches := w.fetches ++ [1] },
    stats := { downloaded := 0, failed := 0, skipped := 0, total := fp.total },
    logs := startLogs (load_state w) fp,
    saves := [],
    sleeps := [] }

/-- The final summary log lines. -/
def finishLogs (s : RunState) : RunState :=
  { s with logs := s.logs ++
      ["Download complete!",
       "Total photos: " ++ toString s.stats.total,
       "Successfully downloaded: " ++ toString s.stats.downloaded,
       "Skipped (already existed): " ++ toString s.stats.skipped,
       "Failed: " ++ toString s.stats.failed] }

/-- download_library: load the checkpoint, fetch page 1 for the totals (a
failure here escapes the function), then fold the page loop over
range(start_page, total_pages + 1) and emit the summary. -/
def download_library (env : Env) (w : World) : Except PyExc RunState :=
  match env.getPhotos 1 (w.fetches.count 1) with
  | Except.error e => Except.error e
  | Except.ok first_page =>
      Except.ok (finishLogs
        ((pageRange ((load_state w).last_page + 1) first_page.pages).foldl
          (process_page env ((load_state w).last_page + 1) first_page.total
            first_page.pages first_page)
          (initRunState w first_page)))

/-- The API credentials as shipped in the script. -/
def API_KEY : String := "YOUR_KEY"

/-- The API secret as shipped in the script. -/
def API_SECRET : String := "YOUR_SECRET"

/-- Observable startup events of the process. -/
inductive StartupEvent where
  | createDirectories
  | exitWithCode (code : Nat)
  | runDownloader
  deriving DecidableEq, Repr

/-- The credential guard at the top of main. -/
def credentials_check_trips (key secret : String) : Bool :=
  key == "YOUR_API_KEY_HERE" || secret == "YOUR_API_SECRET_HERE"

/-- The startup sequence of the process: the module body creates the three
directories at import time, then main runs the credential guard and either
exits 1 or goes on to authenticate and download. -/
def startup_events (key secret : String) : List StartupEvent :=
  StartupEvent.createDirectories ::
    (if credentials_check_trips key secret then [StartupEvent.exitWithCode 1]
     else [StartupEvent.runDownloader])

/-
Concrete scenarios used by the claims.
-/

/-- The empty initial world: no files, no checkpoint, no history. -/
def w0 : World :=
  { files := [], metaFiles := [], stateFile := none, fetches := [],
    transferLog := [] }

/-- A default run state, used only to unpack Except values. -/
def rsDefault : RunState :=
  { chk := { last_page := 0, downloaded := [], failed := [] },
    world := w0,
    stats := { downloaded := 0, failed := 0, skipped := 0, total := 0 },
    logs := [], saves := [], sleeps := [] }

/-- A photo with an original url and a jpg format. -/
def simplePhoto (pid url : String) : Photo :=
  { id := pid, title := some ("t" ++ pid), url_o := some url, url_k := none,
    url_h := none, url_l := none, url_c := none, urlsList := [],
    originalformat := some "jpg", media := none }

/-- A photo with no usable URL at all. -/
def noUrlPhoto (pid : String) : Photo :=
  { id := pid, title := some ("t" ++ pid), url_o := none, url_k := none,
    url_h := none, url_l := none, url_c := none, urlsList := [],
    originalformat := some "jpg", media := none }

/-- A baseline environment where every metadata call and transfer
succeeds and the catalog is empty. -/
def baseEnv : Env :=
  { getInfo := fun pid => Except.ok ("info-" ++ pid),
    getExif := fun pid => Except.ok ("exif-" ++ pid),
    getComments := fun pid => Except.ok ("comments-" ++ pid),
    transfer := fun _ _ => TransferResult.ok,
    getPhotos := fun _ _ =>
      Except.ok { total := 0, pages := 0, photo := [] } }

/-- Page data of the C1 scenario: one photo per page, five pages. -/
def page1data (page : Nat) : PageData :=
  { total := 5, pages := 5,
    photo := [simplePhoto ("p" ++ toString page) ("u" ++ toString page)] }

/-- C1 scenario: five pages of one photo each; the first fetch of page 3
raises a transient transport error, every later attempt succeeds. -/
def env1 : Env :=
  { baseEnv with getPhotos := fun page att =>
      if page = 3 ∧ att = 0 then Except.error (PyExc.other "timeout")
      else Except.ok (page1data page) }

/-- The first C1 run. -/
def out1 : RunState := (download_library env1 w0).toOption.getD rsDefault

/-- The second C1 run, resuming from the world the first run left. -/
def out1b : RunState :=
  (download_library env1 out1.world).toOption.getD rsDefault

/-- Page data of the C2 scenario: a single page holding two photos. -/
def page2data : PageData :=
  { total := 2, pages := 1,
    photo := [simplePhoto "q1" "uq1", simplePhoto "q2" "uq2"] }

/-- C2 scenario: one page holding two photos, everything succeeds. -/
def env2 : Env :=
  { baseEnv with getPhotos := fun _ _ => Except.ok page2data }

/-- The uninterrupted C2 run from a fresh world. -/
def out2run : RunState := (download_library env2 w0).toOption.getD rsDefault

/-- The world left by interrupting the C2 run right after its first item:
the checkpoint file holds the first persisted checkpoint of that run. -/
def wMid : World :=
  { files := ["q1_tq1.jpg"], metaFiles := [],
    stateFile := some { last_page := 1, downloaded := ["q1"], failed := [] },
    fetches := [1], transferLog := ["uq1"] }

/-- The C2 resume run from the interrupted world. -/
def outMid : RunState :=
  (download_library env2 wMid).toOption.getD rsDefault

/-- C3 scenario: the first transfer of the single photo fails before any
byte is written; the collection grows from one page to two between the
runs, and the grown page 2 lists the same photo again. -/
def envC3 : Env :=
  { baseEnv with
    transfer := fun _ att =>
      if att = 0 then TransferResult.failNoWrite "connection reset"
      else TransferResult.ok,
    getPhotos := fun page att =>
      if page = 1 ∧ att = 0 then
        Except.ok { total := 1, pages := 1, photo := [simplePhoto "r1" "ur1"] }
      else
        Except.ok { total := 2, pages := 2, photo := [simplePhoto "r1" "ur1"] } }

/-- The first C3 run (the transfer fails, r1 lands in the failed list). -/
def outC3a : RunState := (download_library envC3 w0).toOption.getD rsDefault

/-- The second C3 run (page 2 lists r1 again, the retry succeeds). -/
def outC3b : RunState :=
  (download_library envC3 outC3a.world).toOption.getD rsDefault

/-- First page of the C4 scenario. -/
def page4data1 : PageData :=
  { total := 3, pages := 2, photo := [simplePhoto "1" "u1", noUrlPhoto "2"] }

/-- Second page of the C4 scenario. -/
def page4data2 : PageData :=
  { total := 3, pages := 2, photo := [simplePhoto "3" "u3"] }

/-- C4 scenario: two pages, three photos, photo 2 has no usable URL. -/
def env4 : Env :=
  { baseEnv with getPhotos := fun page _ =>
      if page = 1 then Except.ok page4data1 else Except.ok page4data2 }

/-- The C4 end-to-end run. -/
def out4 : RunState := (download_library env4 w0).toOption.getD rsDefault

/-- C5 scenario: the single transfer always dies mid-stream, leaving a
partial destination file behind. -/
def env5 : Env :=
  { baseEnv with
    transfer := fun _ _ => TransferResult.failAfterWrite "connection reset",
    getPhotos := fun _ _ =>
      Except.ok { total := 1, pages := 1, photo := [simplePhoto "t1" "ut1"] } }

/-- The photo of the C5 scenario. -/
def photo5 : Photo := simplePhoto "t1" "ut1"

/-- The C5 run. -/
def outC5 : RunState := (download_library env5 w0).toOption.getD rsDefault

/-- C6 scenario: two pages of one photo each, everything succeeds and
nothing changes between runs. -/
def env6 : Env :=
  { baseEnv with getPhotos := fun page _ =>
      if page = 1 then
        Except.ok { total := 2, pages := 2, photo := [simplePhoto "v1" "w1"] }
      else
        Except.ok { total := 2, pages := 2, photo := [simplePhoto "v2" "w2"] } }

/-- The first C6 run. -/
def out6 : RunState := (download_library env6 w0).toOption.getD rsDefault

/-- The second C6 run over the unchanged remote collection. -/
def out6b : RunState :=
  (download_library env6 out6.world).toOption.getD rsDefault

/-- C7 witness environment: the EXIF sub-query of x1 raises a
non-not-found FlickrError, the comments sub-query of x2 raises a
not-found FlickrError; everything else succeeds. -/
def envW7 : Env :=
  { baseEnv with
    getExif := fun pid =>
      if pid = "x1" then Except.error (PyExc.flickr "rate limit exceeded")
      else Except.ok ("exif-" ++ pid),
    getComments := fun pid =>
      if pid = "x2" then Except.error (PyExc.flickr "Comments not found")
      else Except.ok ("comments-" ++ pid) }

/-- The photo of the C7 witness. -/
def photoW7 : Photo := simplePhoto "x1" "ux1"

/-- C10 witness environment: the EXIF sub-query raises a non-FlickrError
transport exception. -/
def envW10 : Env :=
  { baseEnv with
    getExif := fun _ => Except.error (PyExc.other "socket timeout") }

/-- The photo of the C10 witness. -/
def photoW10 : Photo := simplePhoto "y1" "uy1"

/-- The photo of the C8 filename scenario. -/
def photo8 : Photo :=
  { id := "123", title := some "My Trip!", url_o := some "u8", url_k := none,
    url_h := none, url_l := none, url_c := none, urlsList := [],
    originalformat := some "jpg", media := none }

/-- A tiny environment whose catalog is empty, used to witness the
monotonicity theorem. -/
def envTiny : Env := baseEnv

/-- The run over the empty catalog. -/
def outTiny : RunState :=
  (download_library envTiny w0).toOption.getD rsDefault

/-
Helper lemmas about the orchestrator steps.
-/

/-- One list extends another by a suffix (append-only growth). -/
def listGrows (a b : List String) : Prop := ∃ t, a ++ t = b

/-- Growth is reflexive. -/
theorem listGrows_refl (l : List String) : listGrows l l :=
  ⟨[], List.append_nil l⟩

/-- Growth by one appended element. -/
theorem listGrows_snoc (l : List String) (x : String) :
    listGrows l (l ++ [x]) := ⟨[x], rfl⟩

/-- Growth is transitive. -/
theorem listGrows_trans {a b c : List String}
    (h1 : listGrows a b) (h2 : listGrows b c) : listGrows a c := by
  obtain ⟨t1, rfl⟩ := h1
  obtain ⟨t2, rfl⟩ := h2
  exact ⟨t1 ++ t2, (List.append_assoc a t1 t2).symm⟩

/-- Checkpoint growth: both identifier lists only gain elements. -/
def DLState.growsTo (a b : DLState) : Prop :=
  listGrows a.downloaded b.downloaded ∧ listGrows a.failed b.failed

/-- Checkpoint growth is reflexive. -/
theorem growsTo_refl (a : DLState) : a.growsTo a :=
  ⟨listGrows_refl _, listGrows_refl _⟩

/-- Checkpoint growth is transitive. -/
theorem growsTo_trans {a b c : DLState}
    (h1 : a.growsTo b) (h2 : b.growsTo c) : a.growsTo c :=
  ⟨listGrows_trans h1.1 h2.1, listGrows_trans h1.2 h2.2⟩

/-- The metadata phase leaves everything but the metadata store and the
log untouched. -/
theorem metadata_step_frame (env : Env) (photo : Photo) (s : RunState) :
    (metadata_step env photo s).chk = s.chk
    ∧ (metadata_step env photo s).world.files = s.world.files
    ∧ (metadata_step env photo s).world.transferLog = s.world.transferLog
    ∧ (metadata_step env photo s).world.stateFile = s.world.stateFile
    ∧ (metadata_step env photo s).stats = s.stats := by
  unfold metadata_step
  cases h : get_photo_metadata env photo.id with
  | mk md mlogs =>
      cases md <;> exact ⟨rfl, rfl, rfl, rfl, rfl⟩

/-- download_photo never touches the metadata store. -/
theorem download_photo_metaFiles (env : Env) (w : World) (stats : Stats)
    (pid url fn : String) :
    (download_photo env w stats pid url fn).world.metaFiles = w.metaFiles := by
  unfold download_photo
  split
  · rfl
  · split <;> rfl

/-- The download phase never touches the metadata store. -/
theorem download_step_metaFiles (env : Env) (photo : Photo) (s : RunState) :
    (download_step env photo s).world.metaFiles = s.world.metaFiles := by
  unfold download_step
  split
  · dsimp only
    split
    · exact download_photo_metaFiles env s.world s.stats photo.id _ _
    · exact download_photo_metaFiles env s.world s.stats photo.id _ _
  · rfl

/-- The download phase only appends to the checkpoint lists. -/
theorem download_step_grows (env : Env) (photo : Photo) (s : RunState) :
    s.chk.growsTo (download_step env photo s).chk := by
  unfold download_step
  split
  · dsimp only
    split
    · exact ⟨listGrows_snoc _ _, listGrows_refl _⟩
    · exact ⟨listGrows_refl _, listGrows_snoc _ _⟩
  · exact ⟨listGrows_refl _, listGrows_snoc _ _⟩

/-- The metadata phase of an attempted item preserves the checkpoint. -/
theorem step1_chk (env : Env) (tp i : Nat) (photo : Photo) (s : RunState) :
    (metadata_step env photo (progress_log tp i photo s)).chk = s.chk :=
  (metadata_step_frame env photo (progress_log tp i photo s)).1

/-- The metadata phase of an attempted item preserves the files. -/
theorem step1_files (env : Env) (tp i : Nat) (photo : Photo) (s : RunState) :
    (metadata_step env photo (progress_log tp i photo s)).world.files
      = s.world.files :=
  (metadata_step_frame env photo (progress_log tp i photo s)).2.1

/-- The metadata phase of an attempted item preserves the transfer log. -/
theorem step1_transferLog (env : Env) (tp i : Nat) (photo : Photo)
    (s : RunState) :
    (metadata_step env photo (progress_log tp i photo s)).world.transferLog
      = s.world.transferLog :=
  (metadata_step_frame env photo (progress_log tp i photo s)).2.2.1

/-- The metadata phase of an attempted item preserves the statistics. -/
theorem step1_stats (env : Env) (tp i : Nat) (photo : Photo) (s : RunState) :
    (metadata_step env photo (progress_log tp i photo s)).stats = s.stats :=
  (metadata_step_frame env photo (progress_log tp i photo s)).2.2.2.2

/-- Each attempted item only appends to the checkpoint lists. -/
theorem process_photo_grows (env : Env) (tp page i : Nat) (photo : Photo)
    (s : RunState) :
    s.chk.growsTo (process_photo env tp page i photo s).chk := by
  unfold process_photo
  split
  · exact growsTo_refl _
  · have h2 := download_step_grows env photo
      (metadata_step env photo (progress_log tp i photo s))
    rw [step1_chk] at h2
    exact ⟨h2.1, h2.2⟩

/-- The item loop only appends to the checkpoint lists. -/
theorem process_items_grows (env : Env) (tp page : Nat) :
    ∀ (l : List Photo) (i : Nat) (s : RunState),
      s.chk.growsTo (process_items env tp page l i s).chk := by
  intro l
  induction l with
  | nil => intro i s; exact growsTo_refl _
  | cons photo rest ih =>
      intro i s
      exact growsTo_trans (process_photo_grows env tp page i photo s)
        (ih (i + 1) (process_photo env tp page i photo s))

/-- The second component of fetch_page preserves the checkpoint. -/
theorem fetch_page_chk (env : Env) (sp page : Nat) (fp : PageData)
    (s : RunState) : (fetch_page env sp page fp s).2.chk = s.chk := by
  unfold fetch_page
  split <;> rfl

/-- One page iteration only appends to the checkpoint lists. -/
theorem process_page_grows (env : Env) (sp tp tps : Nat) (fp : PageData)
    (s : RunState) (page : Nat) :
    s.chk.growsTo (process_page env sp tp tps fp s page).chk := by
  unfold process_page fetch_page
  by_cases hc : page = 1 ∧ sp = 1
  · rw [if_pos hc]
    exact process_items_grows env tp page fp.photo 1
      { processingLog tps page s with
        logs := (processingLog tps page s).logs ++
          ["Found " ++ toString fp.photo.length ++ " photos on this page"] }
  · rw [if_neg hc]
    cases env.getPhotos page
        ((processingLog tps page s).world.fetches.count page) with
    | ok pd =>
        exact process_items_grows env tp page pd.photo 1
          { { processingLog tps page s with world :=
                { (processingLog tps page s).world with fetches :=
                    (processingLog tps page s).world.fetches ++ [page] } } with
            logs := (processingLog tps page s).logs ++
              ["Found " ++ toString pd.photo.length
                ++ " photos on this page"] }
    | error e => exact ⟨listGrows_refl _, listGrows_refl _⟩

/-- The whole page fold only appends to the checkpoint lists. -/
theorem foldl_pages_grows (env : Env) (sp tp tps : Nat) (fp : PageData) :
    ∀ (pages : List Nat) (s : RunState),
      s.chk.growsTo
        (pages.foldl (process_page env sp tp tps fp) s).chk := by
  intro pages
  induction pages with
  | nil => intro s; exact growsTo_refl _
  | cons p rest ih =>
      intro s
      exact growsTo_trans (process_page_grows env sp tp tps fp s p)
        (ih (process_page env sp tp tps fp s p))

/-- URL resolution when the original url is present. -/
theorem get_download_url_url_o (photo : Photo) (url : String)
    (h : photo.url_o = some url) : get_download_url photo = some url := by
  unfold get_download_url
  rw [h]

/-- The download phase performs exactly one transfer attempt when a URL
resolves and the destination file is absent. -/
theorem download_step_transferLog (env : Env) (photo : Photo) (url : String)
    (s : RunState)
    (hurl : get_download_url photo = some url)
    (hfn : photoFilename photo ∉ s.world.files) :
    (download_step env photo s).world.transferLog
      = s.world.transferLog ++ [url] := by
  unfold download_step download_photo
  rw [hurl]
  dsimp only
  rw [if_neg hfn]
  cases env.transfer url (s.world.transferLog.count url) with
  | ok => simp
  | failAfterWrite m => simp
  | failNoWrite m => rw [if_neg]; simp [hfn]

/-- Classification after a mid-stream transfer failure: the partial file
makes the existence check succeed, so the item is recorded as downloaded. -/
theorem download_step_failAfterWrite (env : Env) (photo : Photo)
    (url m : String) (s : RunState)
    (hurl : get_download_url photo = some url)
    (hfn : photoFilename photo ∉ s.world.files)
    (ht : env.transfer url (s.world.transferLog.count url)
      = TransferResult.failAfterWrite m) :
    (download_step env photo s).chk.downloaded
        = s.chk.downloaded ++ [photo.id]
    ∧ (download_step env photo s).chk.failed = s.chk.failed
    ∧ (download_step env photo s).world.files
        = s.world.files ++ [photoFilename photo]
    ∧ (download_step env photo s).stats.failed = s.stats.failed + 1 := by
  unfold download_step download_photo
  rw [hurl]
  dsimp only
  rw [if_neg hfn, ht]
  dsimp only
  rw [if_pos]
  · exact ⟨rfl, rfl, rfl, rfl⟩
  · exact Or.inr (List.mem_append_right _ (List.mem_singleton.mpr rfl))

/-- Classification after a transfer failure that wrote nothing: the item
is recorded as failed and the filesystem is unchanged. -/
theorem download_step_failNoWrite (env : Env) (photo : Photo)
    (url m : String) (s : RunState)
    (hurl : get_download_url photo = some url)
    (hfn : photoFilename photo ∉ s.world.files)
    (ht : env.transfer url (s.world.transferLog.count url)
      = TransferResult.failNoWrite m) :
    (download_step env photo s).chk.failed = s.chk.failed ++ [photo.id]
    ∧ (download_step env photo s).chk.downloaded = s.chk.downloaded
    ∧ (download_step env photo s).world.files = s.world.files
    ∧ (download_step env photo s).stats.failed = s.stats.failed + 1 := by
  unfold download_step download_photo
  rw [hurl]
  dsimp only
  rw [if_neg hfn, ht]
  dsimp only
  rw [if_neg]
  · exact ⟨rfl, rfl, rfl, rfl⟩
  · rintro (h | h)
    · cases h
    · exact hfn h

/-- When the aggregation yields no document, the metadata store is left
unchanged. -/
theorem metadata_step_metaFiles_none (env : Env) (photo : Photo)
    (s : RunState) (h : (get_photo_metadata env photo.id).1 = none) :
    (metadata_step env photo s).world.metaFiles = s.world.metaFiles := by
  unfold metadata_step
  cases hm : get_photo_metadata env photo.id with
  | mk md mlogs =>
      cases md with
      | none => rfl
      | some md' => rw [hm] at h; cases h

/-- An attempted item with a resolvable URL and an absent destination
performs exactly one transfer attempt. -/
theorem process_photo_attempts (env : Env) (tp page i : Nat) (photo : Photo)
    (url : String) (s : RunState)
    (hurl : photo.url_o = some url)
    (hskip : photo.id ∉ s.chk.downloaded)
    (hfn : photoFilename photo ∉ s.world.files) :
    (process_photo env tp page i photo s).world.transferLog
      = s.world.transferLog ++ [url] := by
  unfold process_photo
  rw [if_neg hskip]
  show (download_step env photo
    (metadata_step env photo (progress_log tp i photo s))).world.transferLog
      = s.world.transferLog ++ [url]
  have h1 := download_step_transferLog env photo url
    (metadata_step env photo (progress_log tp i photo s))
    (get_download_url_url_o photo url hurl)
    (by rw [step1_files]; exact hfn)
  rw [h1, step1_transferLog]

/-- Every attempted item commits: last_page is set to the current page and
the checkpoint file holds exactly the in-memory checkpoint. -/
theorem process_photo_commits (env : Env) (tp page i : Nat) (photo : Photo)
    (s : RunState) (h : photo.id ∉ s.chk.downloaded) :
    (process_photo env tp page i photo s).chk.last_page = page
    ∧ (process_photo env tp page i photo s).world.stateFile
        = some (process_photo env tp page i photo s).chk := by
  unfold process_photo
  rw [if_neg h]
  exact ⟨rfl, rfl⟩

/-- When the aggregation yields no document for an attempted item, no
metadata file is written by the item. -/
theorem process_photo_metaFiles_none (env : Env) (tp page i : Nat)
    (photo : Photo) (s : RunState)
    (hskip : photo.id ∉ s.chk.downloaded)
    (hmeta : (get_photo_metadata env photo.id).1 = none) :
    (process_photo env tp page i photo s).world.metaFiles
      = s.world.metaFiles := by
  unfold process_photo
  rw [if_neg hskip]
  show (download_step env photo
    (metadata_step env photo (progress_log tp i photo s))).world.metaFiles
      = s.world.metaFiles
  rw [download_step_metaFiles]
  exact metadata_step_metaFiles_none env photo (progress_log tp i photo s) hmeta

/-
Claim theorems.
-/

/-- C9 (code bug): with the credentials exactly as shipped in the script
(the unset placeholders YOUR_KEY and YOUR_SECRET), the startup guard does
not trip, because it compares against the different strings
YOUR_API_KEY_HERE and YOUR_API_SECRET_HERE; the process creates its
directories (at module import, before the guard can run) and proceeds to
the downloader instead of aborting with a non-zero exit before touching
any state. -/
theorem C9_startup_guard_misses_placeholders :
    credentials_check_trips API_KEY API_SECRET = false
    ∧ startup_events API_KEY API_SECRET
        = [StartupEvent.createDirectories, StartupEvent.runDownloader] :=
  ⟨rfl, rfl⟩

/-- C8 counterexample: the sanitizer only replaces the characters in the
class of the re.sub pattern; the space and the exclamation point of the
title My Trip! are not in that class, so identifier 123 with title
My Trip! and format jpg yields 123_My Trip!.jpg, not the 123_My_Trip_.jpg
the claim states. -/
theorem C8_counterexample :
    sanitize_filename "My Trip!" = "My Trip!"
    ∧ photoFilename photo8 = "123_My Trip!.jpg"
    ∧ photoFilename photo8 ≠ "123_My_Trip_.jpg" := by
  refine ⟨rfl, rfl, ?_⟩
  decide

/-- C8 amended: the destination filename is computed deterministically as
identifier, underscore, sanitized title, dot, extension; sanitization
replaces only the nine invalid filesystem characters with underscores and
caps the title part (not the whole name) at 200 characters; identifier 123
with title My Trip! and format jpg therefore yields 123_My Trip!.jpg on
every run. -/
theorem C8_filename_amended :
    photoFilename photo8 = "123_My Trip!.jpg"
    ∧ get_file_extension photo8 = "jpg"
    ∧ ∀ t : String, (sanitize_filename t).data.length ≤ 200
      ∧ ∀ c, c ∈ (sanitize_filename t).data → c ∉ invalid_chars := by
  refine ⟨rfl, rfl, fun t => ⟨?_, ?_⟩⟩
  · show ((t.data.map
      (fun c => if c ∈ invalid_chars then '_' else c)).take 200).length ≤ 200
    rw [List.length_take]
    exact min_le_left _ _
  · intro c hc
    have hc' : c ∈ t.data.map
        (fun c => if c ∈ invalid_chars then '_' else c) :=
      List.take_subset _ _ hc
    obtain ⟨b, _, rfl⟩ := List.mem_map.mp hc'
    by_cases hbv : b ∈ invalid_chars
    · rw [if_pos hbv]
      decide
    · rw [if_neg hbv]
      exact hbv

/-- C8 witness: the general sanitizer bounds instantiated at the concrete
title a<b, whose angle bracket is replaced by an underscore. -/
theorem C8_filename_witness :
    (sanitize_filename "a<b").data.length ≤ 200
    ∧ ('_' : Char) ∉ invalid_chars :=
  ⟨(C8_filename_amended.2.2 "a<b").1,
   (C8_filename_amended.2.2 "a<b").2 '_' (by decide)⟩

/-- C4 counterexample: in the 2-page, 3-item scenario with item 2 lacking
an asset URL, the run ends with the failed statistics counter at 0, not 1:
the no-usable-URL branch appends the identifier to the checkpoint failed
list but never increments the failed counter. -/
theorem C4_counterexample :
    download_library env4 w0 = Except.ok out4
    ∧ out4.chk.failed = ["2"]
    ∧ out4.stats.failed = 0
    ∧ out4.stats
        ≠ { downloaded := 2, failed := 1, skipped := 0, total := 3 } := by
  refine ⟨rfl, rfl, rfl, ?_⟩
  decide

/-- C4 amended: the 2-page, 3-item run with item 2 lacking an asset URL
ends with RunStatistics downloaded 2, skipped 0, failed 0 and total 3
(the failed counter is only incremented by transfer errors, not by the
no-usable-URL path), and a checkpoint with item 2 in the failed set,
items 1 and 3 in the complete set and last page 2. -/
theorem C4_end_to_end_amended :
    download_library env4 w0 = Except.ok out4
    ∧ out4.stats = { downloaded := 2, failed := 0, skipped := 0, total := 3 }
    ∧ out4.chk
        = { last_page := 2, downloaded := ["1", "3"], failed := ["2"] } :=
  ⟨rfl, rfl, rfl⟩

/-- C1 counterexample: with a transient error on the first fetch of page 3
of 5 (a retry would succeed, as the third conjunct shows), the run rolls
the checkpoint back but never re-attempts page 3: its item p3 is in
neither checkpoint list after the run, page 3 was fetched exactly once
across this run and a following one, and the follow-up run (resuming at
page 6) does not touch it either — so pages 3 to 5 are not all eventually
attempted with page 3 retried. -/
theorem C1_counterexample :
    download_library env1 w0 = Except.ok out1
    ∧ download_library env1 out1.world = Except.ok out1b
    ∧ env1.getPhotos 3 1 = Except.ok (page1data 3)
    ∧ "p3" ∉ out1.chk.downloaded ∧ "p3" ∉ out1.chk.failed
    ∧ "p3" ∉ out1b.chk.downloaded ∧ "p3" ∉ out1b.chk.failed
    ∧ out1b.world.fetches.count 3 = 1 := by
  refine ⟨rfl, rfl, rfl, ?_, ?_, ?_, ?_, ?_⟩ <;> decide

/-- C1 amended: on the transient page-3 failure the run logs the error,
rolls the persisted last-processed-page back to 2, sleeps the 5-second
backoff and continues with the next page, and no exception escapes the
page loop; pages 1, 2, 4 and 5 are attempted, but page 3 is not
re-attempted: the loop proceeds to page 4, whose first item overwrites the
rolled-back last_page, so the run ends at last_page 5 and even an
immediate re-run (which starts past the end) never attempts page 3. -/
theorem C1_page_failure_amended :
    download_library env1 w0 = Except.ok out1
    ∧ "ERROR on page 3: timeout" ∈ out1.logs
    ∧ ({ last_page := 2, downloaded := ["p1", "p2"], failed := [] }
        : DLState) ∈ out1.saves
    ∧ 50 ∈ out1.sleeps
    ∧ out1.chk
        = { last_page := 5, downloaded := ["p1", "p2", "p4", "p5"],
            failed := [] }
    ∧ download_library env1 out1.world = Except.ok out1b
    ∧ out1b.chk = out1.chk
    ∧ out1b.world.transferLog = out1.world.transferLog := by
  refine ⟨rfl, ?_, ?_, ?_, rfl, rfl, rfl, rfl⟩ <;> decide

/-- C2 counterexample: the very first checkpoint the one-page two-item run
persists already carries last_page 1 although item q2 of page 1 has not
been attempted; resuming from exactly that persisted checkpoint (the state
after an interruption between the two items) starts at page 2 and
terminates at once, so q2 — enumerated by page 1, which is not above the
stored last page — is never attempted and ends in neither checkpoint
list. -/
theorem C2_counterexample :
    download_library env2 w0 = Except.ok out2run
    ∧ out2run.saves.head?
        = some { last_page := 1, downloaded := ["q1"], failed := [] }
    ∧ env2.getPhotos 1 1 = Except.ok page2data
    ∧ "q2" ∈ page2data.photo.map Photo.id
    ∧ download_library env2 wMid = Except.ok outMid
    ∧ outMid.world.stateFile
        = some { last_page := 1, downloaded := ["q1"], failed := [] }
    ∧ "q2" ∉ outMid.chk.downloaded ∧ "q2" ∉ outMid.chk.failed := by
  refine ⟨rfl, rfl, rfl, ?_, rfl, rfl, ?_, ?_⟩ <;> decide

/-- C2 amended: the checkpoint last-page field holds the page number of
the page containing the most recently attempted item — it is set to the
current page and persisted after every attempted item, before the page
completes — so after a restart (resuming at last-page plus one) the items
of the stored last page that had not yet been attempted are skipped and
appear in neither the complete nor the failed set. -/
theorem C2_last_page_amended :
    (∀ (env : Env) (tp page i : Nat) (photo : Photo) (s : RunState),
        photo.id ∉ s.chk.downloaded →
        (process_photo env tp page i photo s).chk.last_page = page
        ∧ (process_photo env tp page i photo s).world.stateFile
            = some (process_photo env tp page i photo s).chk)
    ∧ download_library env2 wMid = Except.ok outMid
    ∧ outMid.chk = { last_page := 1, downloaded := ["q1"], failed := [] }
    ∧ "q2" ∉ outMid.chk.downloaded ∧ "q2" ∉ outMid.chk.failed := by
  refine ⟨fun env tp page i photo s h =>
    process_photo_commits env tp page i photo s h, rfl, rfl, ?_, ?_⟩ <;> decide

/-- C2 witness: the committing behaviour instantiated at a concrete item
of the C2 scenario. -/
theorem C2_last_page_witness :
    (process_photo env2 2 1 1 (simplePhoto "q1" "uq1") rsDefault).chk.last_page
        = 1
    ∧ (process_photo env2 2 1 1 (simplePhoto "q1" "uq1")
        rsDefault).world.stateFile
      = some (process_photo env2 2 1 1 (simplePhoto "q1" "uq1")
          rsDefault).chk :=
  C2_last_page_amended.1 env2 2 1 1 (simplePhoto "q1" "uq1") rsDefault
    (by decide)

/-- C3 counterexample: the first run records r1 as failed (its transfer
dies before writing); the second run re-enumerates r1 on the grown page 2,
does not skip it (only the complete list is consulted), succeeds, and
appends it to the complete list without removing it from the failed list —
after the second run the identifier r1 is in both checkpoint sets at
once. -/
theorem C3_counterexample :
    download_library envC3 w0 = Except.ok outC3a
    ∧ download_library envC3 outC3a.world = Except.ok outC3b
    ∧ outC3a.chk.failed = ["r1"]
    ∧ outC3b.chk.downloaded = ["r1"]
    ∧ outC3b.chk.failed = ["r1"]
    ∧ "r1" ∈ outC3b.chk.downloaded ∧ "r1" ∈ outC3b.chk.failed := by
  refine ⟨rfl, rfl, rfl, rfl, rfl, ?_, ?_⟩ <;> decide

/-- C3 amended: within a single run the complete and failed lists only
grow — the loaded checkpoint lists are prefixes of the final in-memory
lists, and nothing is ever removed; disjointness, however, does not hold
across runs: an identifier recorded as failed is re-attempted whenever it
is enumerated again (only the complete list is consulted when skipping),
and a later success appends it to the complete list without removing it
from the failed list, so an identifier can be in both sets. -/
theorem C3_monotonic_growth_amended :
    (∀ (env : Env) (w : World) (out : RunState),
        download_library env w = Except.ok out →
        (load_state w).growsTo out.chk)
    ∧ "r1" ∈ outC3b.chk.downloaded ∧ "r1" ∈ outC3b.chk.failed := by
  refine ⟨?_, ?_, ?_⟩
  · intro env w out h
    unfold download_library at h
    cases hg : env.getPhotos 1 (w.fetches.count 1) with
    | error e => rw [hg] at h; cases h
    | ok fp =>
        rw [hg] at h
        cases h
        exact foldl_pages_grows env ((load_state w).last_page + 1) fp.total
          fp.pages fp (pageRange ((load_state w).last_page + 1) fp.pages)
          (initRunState w fp)
  · decide
  · decide

/-- C3 witness: monotonic growth instantiated on the empty-catalog run. -/
theorem C3_monotonic_growth_witness :
    (load_state w0).growsTo outTiny.chk :=
  C3_monotonic_growth_amended.1 envTiny w0 outTiny (by rfl)

/-- C5 counterexample: the transfer of item t1 raises a transport error
mid-stream (the failed counter confirms the error was taken); the partial
file is left in place, and precisely because of it the post-download
existence check classifies the item as complete: t1 ends in the
checkpoint complete list and the failed list stays empty, contradicting
the claims recording in the failed set. -/
theorem C5_counterexample :
    download_library env5 w0 = Except.ok outC5
    ∧ env5.transfer "ut1" 0 = TransferResult.failAfterWrite "connection reset"
    ∧ outC5.stats.failed = 1
    ∧ photoFilename photo5 ∈ outC5.world.files
    ∧ outC5.chk.downloaded = ["t1"]
    ∧ outC5.chk.failed = [] := by
  refine ⟨rfl, rfl, rfl, ?_, rfl, rfl⟩
  decide

/-- C5 amended: when the asset transfer raises a transport error the fetch
yields Fail (the failed counter is incremented) and any partial file is
left in place; the identifier is recorded in the failed set only when no
destination file exists after the attempt — when a partial file was
written, the existence check classifies the item as complete and the
identifier is recorded in the complete set instead. -/
theorem C5_transfer_error_amended
    (env : Env) (tp page i : Nat) (photo : Photo) (url m : String)
    (s : RunState)
    (hurl : photo.url_o = some url)
    (hskip : photo.id ∉ s.chk.downloaded)
    (hfn : photoFilename photo ∉ s.world.files) :
    (env.transfer url (s.world.transferLog.count url)
        = TransferResult.failAfterWrite m →
      (process_photo env tp page i photo s).chk.downloaded
          = s.chk.downloaded ++ [photo.id]
      ∧ (process_photo env tp page i photo s).chk.failed = s.chk.failed
      ∧ photoFilename photo
          ∈ (process_photo env tp page i photo s).world.files
      ∧ (process_photo env tp page i photo s).stats.failed
          = s.stats.failed + 1)
    ∧ (env.transfer url (s.world.transferLog.count url)
        = TransferResult.failNoWrite m →
      (process_photo env tp page i photo s).chk.failed
          = s.chk.failed ++ [photo.id]
      ∧ (process_photo env tp page i photo s).chk.downloaded
          = s.chk.downloaded
      ∧ (process_photo env tp page i photo s).world.files = s.world.files
      ∧ (process_photo env tp page i photo s).stats.failed
          = s.stats.failed + 1) := by
  unfold process_photo
  rw [if_neg hskip]
  have hurl' := get_download_url_url_o photo url hurl
  constructor
  · intro ht
    have hd := download_step_failAfterWrite env photo url m
      (metadata_step env photo (progress_log tp i photo s)) hurl'
      (by rw [step1_files]; exact hfn)
      (by rw [step1_transferLog]; exact ht)
    refine ⟨?_, ?_, ?_, ?_⟩
    · show (download_step env photo
        (metadata_step env photo (progress_log tp i photo s))).chk.downloaded
          = _
      rw [hd.1, step1_chk]
    · show (download_step env photo
        (metadata_step env photo (progress_log tp i photo s))).chk.failed = _
      rw [hd.2.1, step1_chk]
    · show photoFilename photo ∈ (download_step env photo
        (metadata_step env photo (progress_log tp i photo s))).world.files
      rw [hd.2.2.1, step1_files]
      exact List.mem_append_right _ (List.mem_singleton.mpr rfl)
    · show (download_step env photo
        (metadata_step env photo (progress_log tp i photo s))).stats.failed
          = _
      rw [hd.2.2.2, step1_stats]
  · intro ht
    have hd := download_step_failNoWrite env photo url m
      (metadata_step env photo (progress_log tp i photo s)) hurl'
      (by rw [step1_files]; exact hfn)
      (by rw [step1_transferLog]; exact ht)
    refine ⟨?_, ?_, ?_, ?_⟩
    · show (download_step env photo
        (metadata_step env photo (progress_log tp i photo s))).chk.failed = _
      rw [hd.1, step1_chk]
    · show (download_step env photo
        (metadata_step env photo (progress_log tp i photo s))).chk.downloaded
          = _
      rw [hd.2.1, step1_chk]
    · show (download_step env photo
        (metadata_step env photo (progress_log tp i photo s))).world.files = _
      rw [hd.2.2.1, step1_files]
    · show (download_step env photo
        (metadata_step env photo (progress_log tp i photo s))).stats.failed
          = _
      rw [hd.2.2.2, step1_stats]

/-- C5 witness: the mid-stream-failure classification instantiated on the
concrete C5 scenario. -/
theorem C5_transfer_error_witness :
    (process_photo env5 1 1 1 photo5 rsDefault).chk.downloaded
        = rsDefault.chk.downloaded ++ [photo5.id]
    ∧ (process_photo env5 1 1 1 photo5 rsDefault).chk.failed
        = rsDefault.chk.failed
    ∧ photoFilename photo5
        ∈ (process_photo env5 1 1 1 photo5 rsDefault).world.files
    ∧ (process_photo env5 1 1 1 photo5 rsDefault).stats.failed
        = rsDefault.stats.failed + 1 :=
  (C5_transfer_error_amended env5 1 1 1 photo5 "ut1" "connection reset"
    rsDefault rfl (by decide) (by decide)).1 rfl

/-- C6 (confirmed): running the pipeline a second time over the unchanged
remote collection leaves the on-disk assets, the metadata documents and
the checkpoint file identical, performs no transfer at all (the transfer
log does not grow), and the complete set equals the first runs; moreover
an asset fetch whose destination file already exists reports a skip — it
counts the skip and does not transfer. -/
theorem C6_idempotent_resume :
    (download_library env6 w0 = Except.ok out6
     ∧ download_library env6 out6.world = Except.ok out6b
     ∧ out6b.world.files = out6.world.files
     ∧ out6b.world.metaFiles = out6.world.metaFiles
     ∧ out6b.world.stateFile = out6.world.stateFile
     ∧ out6b.world.transferLog = out6.world.transferLog
     ∧ (load_state out6b.world).downloaded
         = (load_state out6.world).downloaded)
    ∧ ∀ (env : Env) (w : World) (st : Stats) (pid url fn : String),
        fn ∈ w.files →
        download_photo env w st pid url fn
          = { success := true, world := w,
              stats := { st with skipped := st.skipped + 1 },
              logs := ["Skipping existing: " ++ fn] } := by
  refine ⟨⟨rfl, rfl, rfl, rfl, rfl, rfl, rfl⟩, ?_⟩
  intro env w st pid url fn h
  unfold download_photo
  rw [if_pos h]

/-- C6 witness: the skip behaviour instantiated on a file the first C6 run
actually wrote. -/
theorem C6_idempotent_witness :
    download_photo env6 out6.world
        { downloaded := 0, failed := 0, skipped := 0, total := 0 }
        "v1" "w1" "v1_tv1.jpg"
      = { success := true, world := out6.world,
          stats := { downloaded := 0, failed := 0, skipped := 0 + 1,
                     total := 0 },
          logs := ["Skipping existing: " ++ "v1_tv1.jpg"] } :=
  C6_idempotent_resume.2 env6 out6.world
    { downloaded := 0, failed := 0, skipped := 0, total := 0 }
    "v1" "w1" "v1_tv1.jpg" (by decide)

/-- C7 (confirmed): an optional sub-query failing with a FlickrError
stores none for its field; a not-found-class message produces no warning,
any other message is logged as a warning; in both directions the
aggregation still succeeds (never a hard failure), and the item still
proceeds to URL resolution and performs its asset transfer attempt. -/
theorem C7_optional_metadata_isolation
    (env : Env) (pid1 pid2 info1 info2 c1 e2 m1 m2 : String)
    (h1i : env.getInfo pid1 = Except.ok info1)
    (h1e : env.getExif pid1 = Except.error (PyExc.flickr m1))
    (h1c : env.getComments pid1 = Except.ok c1)
    (h2i : env.getInfo pid2 = Except.ok info2)
    (h2e : env.getExif pid2 = Except.ok e2)
    (h2c : env.getComments pid2 = Except.error (PyExc.flickr m2)) :
    get_photo_metadata env pid1
      = (some { info := info1, exif := none, comments := some c1,
                list_info := none },
         if isNotFoundMsg m1 then [] else [exifWarnLog pid1 m1])
    ∧ get_photo_metadata env pid2
      = (some { info := info2, exif := some e2, comments := none,
                list_info := none },
         if isNotFoundMsg m2 then [] else [commentsWarnLog pid2 m2])
    ∧ ∀ (tp page i : Nat) (photo : Photo) (url : String) (s : RunState),
        photo.id = pid1 → photo.url_o = some url →
        pid1 ∉ s.chk.downloaded → photoFilename photo ∉ s.world.files →
        (process_photo env tp page i photo s).world.transferLog
          = s.world.transferLog ++ [url] := by
  refine ⟨?_, ?_, ?_⟩
  · unfold get_photo_metadata
    rw [h1i, h1e, h1c]
    simp [optField]
  · unfold get_photo_metadata
    rw [h2i, h2e, h2c]
    simp [optField]
  · intro tp page i photo url s hid hurl hskip hfn
    rw [← hid] at hskip
    exact process_photo_attempts env tp page i photo url s hurl hskip hfn

/-- C7 witness: the isolation behaviour instantiated on the concrete
environment where x1 loses EXIF with a rate-limit error and x2 loses
comments with a not-found error. -/
theorem C7_optional_metadata_witness :
    get_photo_metadata envW7 "x1"
      = (some { info := "info-x1", exif := none,
                comments := some "comments-x1", list_info := none },
         if isNotFoundMsg "rate limit exceeded" then []
         else [exifWarnLog "x1" "rate limit exceeded"])
    ∧ get_photo_metadata envW7 "x2"
      = (some { info := "info-x2", exif := some "exif-x2", comments := none,
                list_info := none },
         if isNotFoundMsg "Comments not found" then []
         else [commentsWarnLog "x2" "Comments not found"])
    ∧ (process_photo envW7 1 1 1 photoW7 rsDefault).world.transferLog
        = rsDefault.world.transferLog ++ ["ux1"] := by
  have h := C7_optional_metadata_isolation envW7 "x1" "x2" "info-x1"
    "info-x2" "comments-x1" "exif-x2" "rate limit exceeded"
    "Comments not found" rfl rfl rfl rfl rfl rfl
  exact ⟨h.1, h.2.1,
    h.2.2 1 1 1 photoW7 "ux1" rsDefault rfl rfl (by decide) (by decide)⟩

/-- C10 (confirmed): when an optional sub-query raises a non-FlickrError
exception, the whole aggregation returns no document; for such an item no
metadata file is written even though the core record succeeded, and the
orchestrator still proceeds to URL resolution and performs the asset
transfer attempt. -/
theorem C10_metadata_hard_failure
    (env : Env) (pid m : String)
    (hcore : ∃ info, env.getInfo pid = Except.ok info)
    (hopt : env.getExif pid = Except.error (PyExc.other m)
      ∨ ((∃ e, env.getExif pid = Except.ok e)
          ∧ env.getComments pid = Except.error (PyExc.other m))) :
    (get_photo_metadata env pid).1 = none
    ∧ ∀ (tp page i : Nat) (photo : Photo) (url : String) (s : RunState),
        photo.id = pid → photo.url_o = some url →
        pid ∉ s.chk.downloaded → photoFilename photo ∉ s.world.files →
        (process_photo env tp page i photo s).world.metaFiles
            = s.world.metaFiles
        ∧ (process_photo env tp page i photo s).world.transferLog
            = s.world.transferLog ++ [url] := by
  obtain ⟨info, hinfo⟩ := hcore
  have hmeta : (get_photo_metadata env pid).1 = none := by
    rcases hopt with he | ⟨⟨e, he⟩, hc⟩
    · unfold get_photo_metadata
      rw [hinfo, he]
    · unfold get_photo_metadata
      rw [hinfo, he, hc]
  refine ⟨hmeta, ?_⟩
  intro tp page i photo url s hid hurl hskip hfn
  rw [← hid] at hskip hmeta
  exact ⟨process_photo_metaFiles_none env tp page i photo s hskip hmeta,
         process_photo_attempts env tp page i photo url s hurl hskip hfn⟩

/-- C10 witness: the hard-failure isolation instantiated on the concrete
environment whose EXIF sub-query raises a socket timeout. -/
theorem C10_metadata_hard_failure_witness :
    (get_photo_metadata envW10 "y1").1 = none
    ∧ (process_photo envW10 1 1 1 photoW10 rsDefault).world.metaFiles
        = rsDefault.world.metaFiles
    ∧ (process_photo envW10 1 1 1 photoW10 rsDefault).world.transferLog
        = rsDefault.world.transferLog ++ ["uy1"] := by
  have h := C10_metadata_hard_failure envW10 "y1" "socket timeout"
    ⟨"info-y1", rfl⟩ (Or.inl rfl)
  have h2 := h.2 1 1 1 photoW10 "uy1" rsDefault rfl rfl (by decide)
    (by decide)
  exact ⟨h.1, h2.1, h2.2⟩
